import Mathlib

/-!
Verification of the job-assistant pipeline: a shallow embedding of the ledger
(Google-Sheets grid) operations of `job_assistant.py`, `apply_bot.py` and
`email_monitor.py`, together with theorems settling the specified claims about
identity/dedup, idempotent re-runs, failure isolation, reconciliation and the
document-pair invariant.

The ledger is modelled as a grid `List (List String)`: a list of rows, each row
a list of cells, 0-based (grid index 0 is sheet row 1).  A Sheets write to a
cell beyond the current extent pads the sheet with blank cells, which the
`setCell`/`setCellInRow` operations reproduce.
-/

namespace JobAssistant

/-- The empty cell value. -/
def blank : String := ""

/-- A raw posting candidate as produced by the scrapers in `fetch_jobs`:
a dict `{source, title, link}`. -/
structure Job where
  source : String
  title : String
  link : String
deriving DecidableEq

/-- Company enrichment as returned by `get_company_info` (the `clients` list is
stored JSON-serialised, matching `json.dumps(info.get('clients', []))`). -/
structure CompanyInfo where
  company_name : String
  field_of_activity : String
  num_employees : String
  money_raised_ils : String
  clients : String
deriving DecidableEq

/-- Python's substring test `needle in hay` on strings. -/
def containsSub (hay needle : String) : Bool :=
  hay.toList.tails.any (fun t => needle.toList.isPrefixOf t)

/-- Cell `c` of a row; out-of-range cells read as blank (Sheets semantics). -/
def cellD : List String → Nat → String
  | [], _ => blank
  | x :: _, 0 => x
  | _ :: rest, c + 1 => cellD rest c

/-- Row `r` of a grid; out-of-range rows read as the empty row. -/
def rowAt : List (List String) → Nat → List String
  | [], _ => []
  | row :: _, 0 => row
  | _ :: rest, r + 1 => rowAt rest r

/-- What a single-column Sheets read (`range=Tab!X:X`) yields for one row:
`[value]` when the cell is non-empty, `[]` otherwise. -/
def colOf (c : Nat) (row : List String) : List String :=
  if cellD row c = blank then [] else [cellD row c]

/-- Write cell `c` of a row, padding with blank cells as the Sheets API does. -/
def setCellInRow : List String → Nat → String → List String
  | [], 0, v => [v]
  | [], c + 1, v => blank :: setCellInRow [] c v
  | _ :: rest, 0, v => v :: rest
  | x :: rest, c + 1, v => x :: setCellInRow rest c v

/-- Write cell `(r, c)` of a grid, padding with empty rows as needed. -/
def setCell : List (List String) → Nat → Nat → String → List (List String)
  | [], 0, c, v => [setCellInRow [] c v]
  | [], r + 1, c, v => [] :: setCell [] r c v
  | row :: rest, 0, c, v => setCellInRow row c v :: rest
  | row :: rest, r + 1, c, v => row :: setCell rest r c v

/-! ## Identity and `record_new` (job_assistant.py lines 178-221)

`record_new` reads column H (`exist = {r[0] for r in values(H:H)}`) and keeps
`new = [j for j in jobs if j['link'] not in exist]`; the dedup key is the raw
link string, used verbatim.  New rows are inserted directly under the header
(`insertDimension` at index 1, then a values write of `A2:M{1+len}`), each row
`[source, company, field, loc, employees, money, clients, link, now, NEW,
'', '', '']`. -/

/-- The dedup identity of a candidate: `record_new` line 182 compares the raw
`j['link']` against the set of column-H values, with no canonicalisation. -/
def identity (link : String) : String := link

/-- The set of identities already in the ledger: the non-empty column-H cells,
mirroring `{r[0] for r in values(H:H)}`. -/
def known_identities (grid : List (List String)) : List String :=
  grid.filterMap (fun row => (colOf 7 row).head?)

/-- The thirteen-cell row (`A..M`) written for one new job by `record_new`:
status `NEW` in column J, resume/cover/response cells (K, L, M) blank. -/
def recordNewRow (details : String → String × Option Int)
    (info : String → CompanyInfo) (now : String) (j : Job) : List String :=
  [j.source, (info j.link).company_name, (info j.link).field_of_activity,
   (details j.link).1, (info j.link).num_employees,
   (info j.link).money_raised_ils, (info j.link).clients,
   j.link, now, "NEW", blank, blank, blank]

/-- `record_new`: filter the batch against the snapshot of known identities and
insert one row per surviving candidate under the header.  Returns the list of
surviving candidates (the function's return value, cached in
`new_jobs_cache`) together with the grid after the write. -/
def record_new_grid (details : String → String × Option Int)
    (info : String → CompanyInfo) (now : String)
    (grid : List (List String)) (jobs : List Job) :
    List Job × List (List String) :=
  let exist := known_identities grid
  let new := jobs.filter (fun j => !(exist.contains (identity j.link)))
  if new.isEmpty then (new, grid)
  else (new, grid.take 1 ++ new.map (recordNewRow details info now) ++ grid.drop 1)

/-- The header row of the Applications tab, per the module docstring
(columns A..M). -/
def headerRow : List String :=
  ["Source", "Company Name", "Field of Activity", "Job Location",
   "Number of Employees", "Money Raised (ILS)", "Major Clients (JSON)",
   "Job Link", "Date Found", "Status", "Resume File", "Cover File",
   "Response Status"]

/-! ## apply_bot.py handler (lines 39-52)

The handler generates documents for each chosen job and *appends* rows
`[source, title, link, now, SUBMITTED, resume, cover]` to the tab,
unconditionally. -/

/-- A generated resume/cover pair. -/
structure Docs where
  resume : String
  cover : String
deriving DecidableEq

/-- The seven-cell row appended by `apply_bot.handler` for one chosen job. -/
def handlerRow (docs : Job → Docs) (now : String) (job : Job) : List String :=
  [job.source, job.title, job.link, now, "SUBMITTED",
   (docs job).resume, (docs job).cover]

/-- `apply_bot.handler`'s ledger effect: a values `append` of one row per
chosen job, regardless of what rows already exist. -/
def handler_append (grid : List (List String)) (docs : Job → Docs)
    (now : String) (chosen : List Job) : List (List String) :=
  grid ++ chosen.map (handlerRow docs now)

/-! ## Concrete inputs used by counterexamples and witnesses -/

/-- Details stub: every lookup fails, yielding `('', None)`. -/
def d0 : String → String × Option Int := fun _ => (blank, none)

/-- Company-info stub: the fallback record returned on any enrichment error. -/
def i0 : String → CompanyInfo := fun _ => ⟨blank, blank, blank, blank, "[]"⟩

def nowS : String := "2024-01-01T08:00:00"

def linkX : String := "https://x/1"

def jobX : Job := ⟨"LinkedIn", "Engineer", "https://x/1"⟩

def utmJobA : Job := ⟨"LinkedIn", "Engineer", "https://x/1?utm=a"⟩

def utmJobB : Job := ⟨"Indeed", "Engineer", "https://x/1?utm=b"⟩

/-! ## Claims C1-C3 -/

/-- The list of candidates surviving `record_new`'s dedup is the stable filter
of the batch against the snapshot of known identities. -/
theorem record_new_fst (details : String → String × Option Int)
    (info : String → CompanyInfo) (now : String)
    (grid : List (List String)) (jobs : List Job) :
    (record_new_grid details info now grid jobs).1
      = jobs.filter
          (fun j => !((known_identities grid).contains (identity j.link))) := by
  simp only [record_new_grid]
  split <;> rfl

/-- Claim C1 as stated is false on the code: `record_new` deduplicates by the
verbatim link string, so `https://x/1?utm=a` and `https://x/1?utm=b` have
distinct identities and are *not* treated as duplicates of one another — both
survive dedup against a ledger holding neither. -/
theorem C1_counterexample :
    identity utmJobA.link ≠ identity utmJobB.link ∧
    (record_new_grid d0 i0 nowS [headerRow] [utmJobA, utmJobB]).1
      = [utmJobA, utmJobB] := by
  exact ⟨by decide, by decide⟩

/-- Claim C1 amended: the identity used for deduplication is the verbatim link
string — a pure function of the link, injective, so links that differ at all
(in particular only in query-string tracking parameters) yield distinct
identities, and a candidate survives `record_new`'s dedup exactly when its
identity is absent from the ledger's column-H snapshot. -/
theorem C1_identity_is_verbatim_link :
    (∀ l1 l2 : String, identity l1 = identity l2 ↔ l1 = l2) ∧
    (∀ details info now grid jobs (j : Job),
      j ∈ (record_new_grid details info now grid jobs).1 ↔
        j ∈ jobs ∧
          (known_identities grid).contains (identity j.link) = false) := by
  constructor
  · intro l1 l2
    exact Iff.rfl
  · intro details info now grid jobs j
    rw [record_new_fst]
    simp [List.mem_filter]

/-- Claim C2: a candidate whose identity is already a column-H value of the
ledger (here: on a row whose status cell J reads SUBMITTED) is excluded from
the list of new postings returned by `record_new`, and none of the rows the
run inserts carries that identity — zero new ledger writes for it. -/
theorem C2_known_identity_skipped
    (details : String → String × Option Int) (info : String → CompanyInfo)
    (now : String) (grid : List (List String)) (jobs : List Job) (j : Job)
    (row : List String) (hrow : row ∈ grid) (hlink : cellD row 7 = j.link)
    (hne : j.link ≠ blank) (_hsub : cellD row 9 = "SUBMITTED") :
    j ∉ (record_new_grid details info now grid jobs).1 ∧
    ∀ r ∈ ((record_new_grid details info now grid jobs).1).map
        (recordNewRow details info now), cellD r 7 ≠ j.link := by
  have hmem : identity j.link ∈ known_identities grid := by
    unfold known_identities
    refine List.mem_filterMap.mpr ⟨row, hrow, ?_⟩
    unfold colOf
    rw [hlink]
    simp [identity, hne]
  have hcontains : (known_identities grid).contains (identity j.link) = true :=
    List.elem_eq_true_of_mem hmem
  constructor
  · intro hj
    rw [record_new_fst] at hj
    have hp := (List.mem_filter.mp hj).2
    rw [hcontains] at hp
    exact absurd hp (by decide)
  · intro r hr
    rw [record_new_fst] at hr
    rcases List.mem_map.mp hr with ⟨j2, hj2, hrow2⟩
    have hp2 := (List.mem_filter.mp hj2).2
    have hcell : cellD r 7 = j2.link := by
      rw [← hrow2]
      rfl
    rw [hcell]
    intro heq
    rw [heq] at hp2
    rw [hcontains] at hp2
    exact absurd hp2 (by decide)

/-- A ledger row for `https://x/1` at status SUBMITTED, columns A..M. -/
def subRow13 : List String :=
  ["LinkedIn", "Acme", "Software", "Netanya", "50", "0", "[]",
   "https://x/1", "2023-12-01", "SUBMITTED", "r.txt", "c.txt", blank]

/-- Witness for C2 at a concrete ledger that already holds `https://x/1` at
status SUBMITTED: re-discovering it produces no new row for that identity. -/
theorem C2_witness :
    jobX ∉ (record_new_grid d0 i0 nowS [headerRow, subRow13] [jobX]).1 ∧
    ∀ r ∈ ((record_new_grid d0 i0 nowS [headerRow, subRow13] [jobX]).1).map
        (recordNewRow d0 i0 nowS), cellD r 7 ≠ jobX.link :=
  C2_known_identity_skipped d0 i0 nowS [headerRow, subRow13] [jobX] jobX
    subRow13 (by decide) (by decide) (by decide) (by decide)

/-- Claim C3 as stated is false on the code: a single batch containing the same
candidate twice (ledger empty apart from the header) produces *two* inserted
rows with the same identity in column H — `record_new` only filters against
the pre-batch snapshot, never within the batch. -/
theorem C3_counterexample :
    ((record_new_grid d0 i0 nowS [headerRow] [jobX, jobX]).2).length = 3 ∧
    cellD (rowAt (record_new_grid d0 i0 nowS [headerRow] [jobX, jobX]).2 1) 7
      = jobX.link ∧
    cellD (rowAt (record_new_grid d0 i0 nowS [headerRow] [jobX, jobX]).2 2) 7
      = jobX.link := by
  exact ⟨by decide, by decide, by decide⟩

/-- Claim C3 amended: uniqueness holds only against the pre-batch ledger
snapshot.  Within one batch every occurrence of a not-yet-known identity
survives (`record_new` inserts one row per occurrence), and
`apply_bot.handler` always appends one fresh SUBMITTED row per chosen job,
regardless of rows already present for the same identity. -/
theorem C3_dedup_only_against_snapshot :
    (∀ details info now grid jobs (j : Job),
      (known_identities grid).contains (identity j.link) = false →
      ((record_new_grid details info now grid jobs).1).count j
        = jobs.count j) ∧
    (∀ grid docs now chosen,
      (handler_append grid docs now chosen).length
        = grid.length + chosen.length) := by
  constructor
  · intro details info now grid jobs j hj
    rw [record_new_fst]
    have hpj : (!((known_identities grid).contains (identity j.link))) = true := by
      rw [hj]
      rfl
    exact List.count_filter hpj
  · intro grid docs now chosen
    unfold handler_append
    simp

/-- Document stub used by witnesses. -/
def docs0 : Job → Docs := fun _ => ⟨"resume.txt", "cover.txt"⟩

/-- Witness for C3's amended claim at concrete inputs: the duplicate candidate
is counted twice among the survivors, and the handler append grows the ledger
by the number of chosen jobs. -/
theorem C3_witness :
    ((record_new_grid d0 i0 nowS [headerRow] [jobX, jobX]).1).count jobX
      = [jobX, jobX].count jobX ∧
    (handler_append [headerRow, subRow13] docs0 nowS [jobX]).length
      = [headerRow, subRow13].length + [jobX].length :=
  ⟨C3_dedup_only_against_snapshot.1 d0 i0 nowS [headerRow] [jobX, jobX] jobX
      (by decide),
   C3_dedup_only_against_snapshot.2 [headerRow, subRow13] docs0 nowS [jobX]⟩

/-! ## Claim C4: /apply document generation (job_assistant.py lines 251-278)

`draft_command` loops over the selected jobs, calling the OpenAI completion,
splitting on `---` and uploading, with no per-job exception handling: a raised
exception anywhere escapes the whole handler.  `pending_drafts` is assigned
only after the loop finishes.  `Except Unit` models a raised exception. -/

/-- The per-job body of `draft_command`'s loop; generation (completion call,
`---` split, Drive upload) for one job is `gen`.  The loop aborts at the first
raised exception, as the Python loop does. -/
def draftLoop (gen : Job → Except Unit Docs) :
    List Job → Except Unit (List (Job × Docs))
  | [] => .ok []
  | j :: rest =>
    match gen j with
    | .error e => .error e
    | .ok d =>
      match draftLoop gen rest with
      | .error e => .error e
      | .ok ds => .ok ((j, d) :: ds)

/-- `draft_command`'s effect on `pending_drafts`: the drafts of the whole loop
when it completes, the previous value when an exception escapes (the global
assignment sits after the loop). -/
def draft_command (pending : List (Job × Docs)) (gen : Job → Except Unit Docs)
    (jobs : List Job) : List (Job × Docs) :=
  match draftLoop gen jobs with
  | .ok ds => ds
  | .error _ => pending

/-- A raised generation exception for any job in the batch aborts the loop. -/
theorem draftLoop_error_of_mem (gen : Job → Except Unit Docs)
    (jobs : List Job) (j : Job) (hj : j ∈ jobs) (hfail : gen j = .error ()) :
    draftLoop gen jobs = .error () := by
  induction jobs with
  | nil => cases hj
  | cons a rest ih =>
    rcases List.mem_cons.mp hj with h | h
    · rw [h] at hfail
      unfold draftLoop
      rw [hfail]
    · unfold draftLoop
      cases hga : gen a with
      | error e => cases e; rfl
      | ok d =>
        rw [ih h]

def jobOne : Job := ⟨"LinkedIn", "Engineer One", "https://x/1"⟩

def jobTwo : Job := ⟨"LinkedIn", "Engineer Two", "https://x/2"⟩

def jobThree : Job := ⟨"LinkedIn", "Engineer Three", "https://x/3"⟩

/-- A generator that raises exactly on `jobTwo` and succeeds elsewhere. -/
def genFail2 : Job → Except Unit Docs :=
  fun j => if j = jobTwo then .error () else .ok ⟨"resume.txt", "cover.txt"⟩

/-- Claim C4 as stated is false on the code: in a batch of three postings
where generation raises on posting #2, postings #1 and #3 are *not* processed
to completion — the exception escapes the loop, no drafts at all are recorded
(so nothing can later be approved and submitted), even though generation
succeeds on #1 and #3. -/
theorem C4_counterexample :
    genFail2 jobOne = .ok ⟨"resume.txt", "cover.txt"⟩ ∧
    genFail2 jobThree = .ok ⟨"resume.txt", "cover.txt"⟩ ∧
    draftLoop genFail2 [jobOne, jobTwo, jobThree] = .error () ∧
    draft_command [] genFail2 [jobOne, jobTwo, jobThree] = [] := by
  exact ⟨rfl, rfl, rfl, rfl⟩

/-- Claim C4 amended: there is no per-posting isolation — if the
document-generation call raises for any posting of the batch, the whole
/apply command aborts: `pending_drafts` is left at its previous value, so no
posting of the batch (failing or not) gets drafts recorded or advances toward
SUBMITTED, and the failure is not counted anywhere.  (No posting's ledger
status changes, since `draft_command` never writes to the ledger at all.) -/
theorem C4_generation_error_aborts_command
    (pending : List (Job × Docs)) (gen : Job → Except Unit Docs)
    (jobs : List Job) (j : Job) (hj : j ∈ jobs)
    (hfail : gen j = .error ()) :
    draft_command pending gen jobs = pending := by
  unfold draft_command
  rw [draftLoop_error_of_mem gen jobs j hj hfail]

/-- Witness for C4's amended claim: with a prior pending draft in place and a
batch whose second posting fails generation, the pending drafts are unchanged
by the command. -/
theorem C4_witness :
    draft_command [(jobX, ⟨"resume.txt", "cover.txt"⟩)] genFail2
      [jobOne, jobTwo, jobThree] = [(jobX, ⟨"resume.txt", "cover.txt"⟩)] :=
  C4_generation_error_aborts_command [(jobX, ⟨"resume.txt", "cover.txt"⟩)]
    genFail2 [jobOne, jobTwo, jobThree] jobTwo (by decide) rfl

/-! ## Claim C5 and C7: reply reconciliation (email_monitor.py lines 114-150)

`process_responses` reads column C of the Applications tab, and for each
unread reply finds `row_index = next((i for i, row in enumerate(sheet_data)
if row and row[0] in detail["subject"]), None)`; on `None` it logs a warning
and continues; otherwise it writes the classification to the single cell
`F{row_index + 2}`. -/

/-- The match predicate of the generator expression:
`row and row[0] in subject`. -/
def matchPred (subject : String) (row : List String) : Bool :=
  !row.isEmpty && containsSub subject (row.headD blank)

/-- `next((i for i, row in enumerate(sheet_data) if ...), None)`: the index of
the first matching row, or `none`. -/
def row_index (subject : String) : List (List String) → Option Nat
  | [] => none
  | row :: rest =>
    if matchPred subject row then some 0
    else (row_index subject rest).map (· + 1)

/-- The ledger effect of `process_responses` for one inbound reply with the
given subject and classification: on no match the grid is untouched;
on a match at index `i` the classification is written to cell
`F{i + 2}`, i.e. 0-based row `i + 1`, column 5. -/
def process_one (grid : List (List String)) (subject cls : String) :
    List (List String) :=
  match row_index subject (grid.map (colOf 2)) with
  | none => grid
  | some i => setCell grid (i + 1) 5 cls

/-- A ledger row for `https://x/1` at status NEW (apply_bot column layout
A:G = source, title, link, date, status, resume, cover). -/
def rowNew7 : List String :=
  ["LinkedIn", "Engineer", "https://x/1", "2024-01-01", "NEW", blank, blank]

/-- A later ledger row for the same link at status SUBMITTED. -/
def rowSub7 : List String :=
  ["LinkedIn", "Engineer", "https://x/1", "2024-01-02", "SUBMITTED",
   "r2.txt", "c2.txt"]

def replySubject : String := "Re: Application https://x/1"

/-- Claim C5 as stated is false on the code: with two rows matching the reply
subject, the first of which is not SUBMITTED and the second of which is the
most recently SUBMITTED row, the lookup selects index 0 — the first matching
row in sheet order — not the SUBMITTED one. -/
theorem C5_counterexample :
    row_index replySubject ([rowNew7, rowSub7].map (colOf 2)) = some 0 ∧
    row_index replySubject ([rowSub7].map (colOf 2)) = some 0 ∧
    cellD rowNew7 4 ≠ "SUBMITTED" ∧
    cellD rowSub7 4 = "SUBMITTED" := by
  exact ⟨by decide, by decide, by decide, by decide⟩

/-- Claim C5 amended: the reconciler selects the *first* row in sheet order
whose link cell is contained in the reply subject, regardless of status (every
earlier row fails the match predicate); and when no row matches, no cell of
the ledger is updated (the code logs a warning and moves on). -/
theorem C5_first_match_in_sheet_order :
    (∀ grid subject cls,
      row_index subject (grid.map (colOf 2)) = none →
      process_one grid subject cls = grid) ∧
    (∀ subject (sheet : List (List String)) (i : Nat),
      row_index subject sheet = some i →
      matchPred subject (rowAt sheet i) = true ∧
      ∀ k, k < i → matchPred subject (rowAt sheet k) = false) := by
  constructor
  · intro grid subject cls hnone
    unfold process_one
    rw [hnone]
  · intro subject sheet
    induction sheet with
    | nil => intro i h; cases h
    | cons row rest ih =>
      intro i h
      unfold row_index at h
      by_cases hm : matchPred subject row = true
      · rw [if_pos hm] at h
        cases h
        exact ⟨hm, fun k hk => absurd hk (Nat.not_lt_zero k)⟩
      · rw [if_neg hm] at h
        rcases Option.map_eq_some'.mp h with ⟨i', hi', rfl⟩
        rcases ih i' hi' with ⟨hfound, hbefore⟩
        refine ⟨hfound, ?_⟩
        intro k hk
        cases k with
        | zero =>
          show matchPred subject row = false
          simpa using hm
        | succ k' =>
          exact hbefore k' (Nat.lt_of_succ_lt_succ hk)

def noMatchSubject : String := "Re: unrelated conversation"

def clsPos : String := "positive"

/-- Witness for C5's amended claim at concrete inputs: a non-matching reply
leaves the concrete two-row ledger untouched, and the concrete match at
index 0 satisfies the first-match characterisation. -/
theorem C5_witness :
    process_one [rowNew7, rowSub7] noMatchSubject clsPos
      = [rowNew7, rowSub7] ∧
    (matchPred replySubject (rowAt ([rowNew7, rowSub7].map (colOf 2)) 0) = true ∧
      ∀ k, k < 0 →
        matchPred replySubject (rowAt ([rowNew7, rowSub7].map (colOf 2)) k)
          = false) :=
  ⟨C5_first_match_in_sheet_order.1 [rowNew7, rowSub7] noMatchSubject
      clsPos (by decide),
   C5_first_match_in_sheet_order.2 replySubject
      ([rowNew7, rowSub7].map (colOf 2)) 0 (by decide)⟩

/-! ## Claim C6: /approve (job_assistant.py lines 280-298)

`approve_command` re-reads column H, scans it with
`for i, row in enumerate(vals, start=2)` and on `row[0] == job['link']`
updates range `K{i}:M{i}` with `[['SUBMITTED', resume, cover]]`.  Note that
`vals` includes the header cell of row 1, so the matching sheet row is `i - 1`,
and that columns K, L, M are the Resume File / Cover File / Response Status
columns of the module's own docstring — the Status column is J. -/

/-- The `enumerate(vals, start=2)` scan: the 1-based counter paired with the
first column-H entry equal to the link. -/
def approve_row (link : String) : List (List String) → Nat → Option Nat
  | [], _ => none
  | row :: rest, i =>
    if !row.isEmpty && (row.headD blank == link) then some i
    else approve_row link rest (i + 1)

def submittedS : String := "SUBMITTED"

/-- The ledger effect of `/approve` for one drafted job: locate the link in
column H, then write `['SUBMITTED', resume, cover]` into `K{i}:M{i}`
(0-based row `i - 1`, columns 10, 11, 12). -/
def approve_one (grid : List (List String)) (link resume cover : String) :
    List (List String) :=
  match approve_row link (grid.map (colOf 7)) 2 with
  | none => grid
  | some i =>
    setCell (setCell (setCell grid (i - 1) 10 submittedS)
      (i - 1) 11 resume) (i - 1) 12 cover

/-- The Drive view link built by `up` inside `draft_command`. -/
def drive_link (fid : String) : String :=
  "https://drive.google.com/file/d/" ++ fid ++ "/view"

/-- A freshly recorded thirteen-column row for `https://x/1`, status NEW. -/
def newRow13 : List String :=
  ["LinkedIn", "Acme", "Software", "Netanya", "50", "0", "[]",
   "https://x/1", "2024-01-01", "NEW", blank, blank, blank]

def fidR : String := "rid123"

def fidC : String := "cid456"

/-- Claim C6 fails on the code (code bug): approving the drafted job for
`https://x/1` against a ledger `[header, newRow13]` leaves the Status cell
(column J) of that posting's row reading NEW — the update lands in columns
K:M of the row *below* the matched one (the `enumerate` base of 2 over a
column read that still contains the header is off by one, and K:M are the
Resume/Cover/Response columns, not Status).  The matched row is bit-for-bit
unchanged. -/
theorem C6_status_cell_not_updated :
    cellD (rowAt (approve_one [headerRow, newRow13]
      linkX (drive_link fidR) (drive_link fidC)) 1) 9 = "NEW" ∧
    rowAt (approve_one [headerRow, newRow13]
      linkX (drive_link fidR) (drive_link fidC)) 1 = newRow13 ∧
    cellD (rowAt (approve_one [headerRow, newRow13]
      linkX (drive_link fidR) (drive_link fidC)) 2) 10 = submittedS := by
  exact ⟨by decide, by decide, by decide⟩

/-- Claim C7 fails on the code (code bug): reconciling a reply whose subject
contains `https://x/1` against a two-row apply_bot-layout ledger leaves the
matched row 0 untouched but overwrites cell F (the resume-reference column of
the layout written by `apply_bot.handler`) of the *other* row with the
classification — not the matched row's response-status field. -/
theorem C7_reconcile_clobbers_other_row :
    rowAt (process_one [rowSub7, rowNew7] replySubject clsPos) 0 = rowSub7 ∧
    cellD (rowAt (process_one [rowSub7, rowNew7] replySubject clsPos) 1) 5
      = clsPos ∧
    cellD rowNew7 5 = blank := by
  exact ⟨by decide, by decide, by decide⟩

/-! ## Claim C8: relevance filtering (job_assistant.py lines 223-249 and
githubworkflows/job_assistant.py lines 66-83)

`filter_jobs` keeps a title-matching job only when a distance could be
computed and is within radius: a failed detail lookup (empty location) or a
failed/fruitless geocode leaves `dist = None` and the job is dropped.
`filter_relevant` calls the classifier with no exception handling at all. -/

/-- The per-run configuration values read from the Config tab. -/
structure Cfg where
  job_titles : List String
  salary_min : Int
  salary_max : Int
  loc_rad : ℚ
  train_ok : Bool
  train_rad : ℚ

/-- Python `str.lower()` on one character (ASCII range, which covers the
configured title keywords; non-letters are left unchanged). -/
def lowerChar (c : Char) : Char :=
  if 65 ≤ c.toNat ∧ c.toNat ≤ 90 then Char.ofNat (c.toNat + 32) else c

/-- Python `str.lower()`. -/
def toLowerS (s : String) : String := String.mk (s.toList.map lowerChar)

/-- `any(t.lower() in j['title'].lower() for t in titles)`. -/
def titleMatches (titles : List String) (title : String) : Bool :=
  titles.any (fun t => containsSub (toLowerS title) (toLowerS t))

/-- `if sal and (sal < mn or sal > mx): continue` — Python truthiness:
a missing *or zero* salary is never rejected. -/
def salaryRejected (mn mx : Int) : Option Int → Bool
  | none => false
  | some s => (!(s == 0)) && (decide (s < mn) || decide (mx < s))

/-- `filter_jobs`: `geo` models `geolocator.geocode` composed with
`geodesic(...).km` — `none` when the location does not geocode or the lookup
raises (the bare `except` sets `dist = None`).  A job survives only when the
title matches, the salary is not rejected, and a distance was computed within
the home radius (or, with `train_allowed`, the train radius). -/
def filter_jobs (details : String → String × Option Int)
    (geo : String → Option ℚ) (cfg : Cfg) (jobs : List Job) : List Job :=
  jobs.filter (fun j =>
    if !(titleMatches cfg.job_titles j.title) then false
    else if salaryRejected cfg.salary_min cfg.salary_max (details j.link).2 then
      false
    else
      match (if (details j.link).1 = blank then none
             else geo (details j.link).1) with
      | none => false
      | some dist =>
        decide (dist ≤ cfg.loc_rad) ||
          (cfg.train_ok && decide (dist ≤ cfg.train_rad)))

def yesWord : String := "yes"

/-- `githubworkflows` `filter_relevant`: classify each job in turn; a job is
kept when the answer contains `yes`.  The classifier call has no exception
handling, so a raised error (modelled by `Except.error`) escapes and aborts
the whole run. -/
def filter_relevant (classify : Job → Except Unit String) :
    List Job → Except Unit (List Job)
  | [] => .ok []
  | j :: rest =>
    match classify j with
    | .error e => .error e
    | .ok ans =>
      match filter_relevant classify rest with
      | .error e => .error e
      | .ok r => .ok (if containsSub ans yesWord then j :: r else r)

def cfg0 : Cfg := ⟨["engineer"], 0, 9999999, 50, false, 2⟩

/-- A geocode stub that always fails. -/
def g0 : String → Option ℚ := fun _ => none

/-- Claim C8 as stated is false on the code: a posting whose title matches the
configured keywords but whose supporting lookups fail (`get_job_details`
returns `('', None)`, geocoding yields nothing) is *dropped* by
`filter_jobs` — the default policy is fail-closed with respect to location
resolution, not fail-open. -/
theorem C8_counterexample :
    titleMatches cfg0.job_titles jobX.title = true ∧
    filter_jobs d0 g0 cfg0 [jobX] = [] := by
  exact ⟨by decide, by decide⟩

/-- A raised classification error for any job in the list aborts
`filter_relevant`. -/
theorem filter_relevant_error_of_mem (classify : Job → Except Unit String)
    (jobs : List Job) (j : Job) (hj : j ∈ jobs)
    (hfail : classify j = .error ()) :
    filter_relevant classify jobs = .error () := by
  induction jobs with
  | nil => cases hj
  | cons a rest ih =>
    rcases List.mem_cons.mp hj with h | h
    · rw [h] at hfail
      unfold filter_relevant
      rw [hfail]
    · unfold filter_relevant
      cases hca : classify a with
      | error e => cases e; rfl
      | ok ans =>
        rw [ih h]

/-- Claim C8 amended: the failure policy is deterministic and uniform within a
run, but it is fail-closed for location resolution — any title-matching
posting whose extracted location is empty or fails to geocode is dropped, not
treated as relevant — while in the workflow variant a classification failure
is not handled by either policy: the error propagates and aborts the whole
filtering run.  (Salary parsing alone is fail-open: a missing salary never
rejects a posting.) -/
theorem C8_fail_closed_on_location :
    (∀ details geo cfg jobs (j : Job),
      ((details j.link).1 = blank ∨ geo (details j.link).1 = none) →
      j ∉ filter_jobs details geo cfg jobs) ∧
    (∀ classify jobs (j : Job), j ∈ jobs → classify j = .error () →
      filter_relevant classify jobs = .error ()) := by
  constructor
  · intro details geo cfg jobs j hfail hmem
    have hp := (List.mem_filter.mp hmem).2
    have hnone : (if (details j.link).1 = blank then none
        else geo (details j.link).1) = (none : Option ℚ) := by
      rcases hfail with h | h
      · rw [if_pos h]
      · by_cases hb : (details j.link).1 = blank
        · rw [if_pos hb]
        · rw [if_neg hb]
          exact h
    rw [hnone] at hp
    revert hp
    cases titleMatches cfg.job_titles j.title <;>
      cases salaryRejected cfg.salary_min cfg.salary_max (details j.link).2 <;>
        simp
  · exact filter_relevant_error_of_mem

/-- A classifier that always raises. -/
def classifyFail : Job → Except Unit String := fun _ => .error ()

/-- Witness for C8's amended claim at concrete inputs: the title-matching job
with failed lookups is absent from the filter output, and a failing classifier
aborts the workflow filter. -/
theorem C8_witness :
    jobX ∉ filter_jobs d0 g0 cfg0 [jobX] ∧
    filter_relevant classifyFail [jobX] = .error () :=
  ⟨C8_fail_closed_on_location.1 d0 g0 cfg0 [jobX] jobX (Or.inl rfl),
   C8_fail_closed_on_location.2 classifyFail [jobX] jobX (by decide) rfl⟩

/-! ## Cell-level frame lemmas for grid writes -/

/-- Writing cell `c` makes that cell read back as the written value. -/
theorem cellD_setCellInRow_same (c : Nat) :
    ∀ (row : List String) (v : String), cellD (setCellInRow row c v) c = v := by
  induction c with
  | zero =>
    intro row v
    cases row <;> rfl
  | succ n ih =>
    intro row v
    cases row with
    | nil => exact ih [] v
    | cons x rest => exact ih rest v

/-- Writing cell `c` leaves every other cell of the row unchanged (including
cells materialised as blanks by padding). -/
theorem cellD_setCellInRow_ne (c c' : Nat) (hne : c' ≠ c) :
    ∀ (row : List String) (v : String),
      cellD (setCellInRow row c v) c' = cellD row c' := by
  induction c generalizing c' with
  | zero =>
    intro row v
    cases c' with
    | zero => exact absurd rfl hne
    | succ k => cases row <;> rfl
  | succ n ih =>
    intro row v
    cases c' with
    | zero => cases row <;> rfl
    | succ k =>
      have hkn : k ≠ n := fun h => hne (by rw [h])
      cases row with
      | nil => exact ih k hkn [] v
      | cons x rest => exact ih k hkn rest v

/-- Writing cell `(r, c)` replaces row `r` by the row write. -/
theorem rowAt_setCell_same (r : Nat) :
    ∀ (g : List (List String)) (c : Nat) (v : String),
      rowAt (setCell g r c v) r = setCellInRow (rowAt g r) c v := by
  induction r with
  | zero =>
    intro g c v
    cases g <;> rfl
  | succ n ih =>
    intro g c v
    cases g with
    | nil => exact ih [] c v
    | cons row rest => exact ih rest c v

/-- Writing cell `(r, c)` leaves every other row unchanged (including rows
materialised as empty by padding). -/
theorem rowAt_setCell_ne (r r' : Nat) (hne : r' ≠ r) :
    ∀ (g : List (List String)) (c : Nat) (v : String),
      rowAt (setCell g r c v) r' = rowAt g r' := by
  induction r generalizing r' with
  | zero =>
    intro g c v
    cases r' with
    | zero => exact absurd rfl hne
    | succ k => cases g <;> rfl
  | succ n ih =>
    intro g c v
    cases r' with
    | zero => cases g <;> rfl
    | succ k =>
      have hkn : k ≠ n := fun h => hne (by rw [h])
      cases g with
      | nil => exact ih k hkn [] c v
      | cons row rest => exact ih k hkn rest c v

/-- Every positional row of a grid is a member or the empty padding row. -/
theorem rowAt_mem_or_nil :
    ∀ (g : List (List String)) (r : Nat), rowAt g r ∈ g ∨ rowAt g r = [] := by
  intro g
  induction g with
  | nil =>
    intro r
    exact Or.inr rfl
  | cons row rest ih =>
    intro r
    cases r with
    | zero => exact Or.inl (List.mem_cons_self row rest)
    | succ k =>
      rcases ih k with h | h
      · exact Or.inl (List.mem_cons_of_mem row h)
      · exact Or.inr h

/-- Every member of a grid sits at some position. -/
theorem exists_rowAt_of_mem :
    ∀ (g : List (List String)) (row : List String),
      row ∈ g → ∃ r, rowAt g r = row := by
  intro g
  induction g with
  | nil =>
    intro row h
    cases h
  | cons a rest ih =>
    intro row h
    rcases List.mem_cons.mp h with h | h
    · exact ⟨0, h.symm⟩
    · rcases ih row h with ⟨r, hr⟩
      exact ⟨r + 1, hr⟩

/-! ## Claim C9: the atomic document pair invariant

Discovery rows are written with blank K and L cells; the only write that
touches K or L is the `/approve` update, which fills K, L, M in a single
values update (with the non-empty literal and the two non-empty Drive view
links produced by `up`); `generate_documents` always creates and returns both
filenames.  We prove that on every ledger reachable through the code's write
operations, the K cell of a row is blank exactly when the L cell is. -/

/-- The doc-pair property of one row: the K cell (index 10) is blank exactly
when the L cell (index 11) is. -/
def cellIff (row : List String) : Prop :=
  cellD row 10 = blank ↔ cellD row 11 = blank

/-- The doc-pair invariant of a grid: every positional row satisfies
`cellIff`. -/
def docPair (grid : List (List String)) : Prop :=
  ∀ r : Nat, cellIff (rowAt grid r)

theorem docPair_of_mem (g : List (List String))
    (h : ∀ row ∈ g, cellIff row) : docPair g := by
  intro r
  rcases rowAt_mem_or_nil g r with hm | hm
  · exact h _ hm
  · rw [hm]
    exact Iff.rfl

theorem cellIff_of_docPair {g : List (List String)} (h : docPair g)
    {row : List String} (hm : row ∈ g) : cellIff row := by
  rcases exists_rowAt_of_mem g row hm with ⟨r, hr⟩
  rw [← hr]
  exact h r

/-- `generate_documents` (githubworkflows/job_assistant.py lines 112-130):
both text files are always written and both filenames returned, even when the
model output held no `---` separator and the cover text is empty. -/
def generate_documents (ts : String) : Docs :=
  ⟨"resume_" ++ ts ++ ".txt", "cover_" ++ ts ++ ".txt"⟩

theorem append_ne_blank (s t : String) (h : s.length ≠ 0) : s ++ t ≠ blank := by
  intro e
  have hl := congrArg String.length e
  rw [String.length_append] at hl
  have hb : blank.length = 0 := rfl
  rw [hb] at hl
  omega

theorem drive_link_ne_blank (fid : String) : drive_link fid ≠ blank := by
  unfold drive_link
  apply append_ne_blank
  rw [String.length_append]
  have h32 : ("https://drive.google.com/file/d/" : String).length = 32 := rfl
  rw [h32]
  omega

/-- Either no row matched the approved link and the grid is unchanged, or the
update wrote `['SUBMITTED', resume, cover]` into cells 10, 11, 12 of one
row. -/
theorem approve_one_cases (g : List (List String)) (link resume cover : String) :
    approve_one g link resume cover = g ∨
    ∃ i, approve_one g link resume cover
      = setCell (setCell (setCell g i 10 submittedS) i 11 resume)
          i 12 cover := by
  unfold approve_one
  cases approve_row link (g.map (colOf 7)) 2 with
  | none => exact Or.inl rfl
  | some i => exact Or.inr ⟨i - 1, rfl⟩

/-- Either the reply matched no row and the grid is unchanged, or one cell of
column F (index 5) was overwritten. -/
theorem process_one_cases (g : List (List String)) (subject cls : String) :
    process_one g subject cls = g ∨
    ∃ i, process_one g subject cls = setCell g i 5 cls := by
  unfold process_one
  cases row_index subject (g.map (colOf 2)) with
  | none => exact Or.inl rfl
  | some i => exact Or.inr ⟨i + 1, rfl⟩

/-- Membership in the grid after a `record_new` write: an old row or one of
the freshly inserted NEW rows. -/
theorem record_new_snd_mem (details : String → String × Option Int)
    (info : String → CompanyInfo) (now : String) (g : List (List String))
    (jobs : List Job) (row : List String)
    (h : row ∈ (record_new_grid details info now g jobs).2) :
    row ∈ g ∨ ∃ j, row = recordNewRow details info now j := by
  simp only [record_new_grid] at h
  split at h
  · exact Or.inl h
  · rcases List.mem_append.mp h with h1 | h1
    · rcases List.mem_append.mp h1 with h2 | h2
      · exact Or.inl (List.take_subset 1 g h2)
      · rcases List.mem_map.mp h2 with ⟨j, _, hj⟩
        exact Or.inr ⟨j, hj.symm⟩
    · exact Or.inl (List.drop_subset 1 g h1)

/-- A write to a column other than K and L preserves the doc-pair
invariant. -/
theorem docPair_setCell_other (g : List (List String)) (r c : Nat)
    (v : String) (hc10 : c ≠ 10) (hc11 : c ≠ 11) (h : docPair g) :
    docPair (setCell g r c v) := by
  intro r'
  by_cases hr : r' = r
  · subst hr
    rw [rowAt_setCell_same]
    unfold cellIff
    rw [cellD_setCellInRow_ne c 10 (Ne.symm hc10),
      cellD_setCellInRow_ne c 11 (Ne.symm hc11)]
    exact h r'
  · rw [rowAt_setCell_ne r r' hr]
    exact h r'

/-- The `/approve` update writes the K, L, M cells of one row together, with a
non-blank literal in K and a non-blank Drive link in L: the doc pair stays
atomic. -/
theorem docPair_approve_write (g : List (List String)) (i : Nat)
    (resume cover : String) (hres : resume ≠ blank) (h : docPair g) :
    docPair (setCell (setCell (setCell g i 10 submittedS) i 11 resume)
      i 12 cover) := by
  intro r
  by_cases hr : r = i
  · subst hr
    rw [rowAt_setCell_same, rowAt_setCell_same, rowAt_setCell_same]
    unfold cellIff
    rw [cellD_setCellInRow_ne 12 10 (by omega),
      cellD_setCellInRow_ne 11 10 (by omega),
      cellD_setCellInRow_same,
      cellD_setCellInRow_ne 12 11 (by omega),
      cellD_setCellInRow_same]
    constructor
    · intro hs
      exact absurd hs (by decide)
    · intro hc
      exact absurd hc hres
  · rw [rowAt_setCell_ne i r hr, rowAt_setCell_ne i r hr,
      rowAt_setCell_ne i r hr]
    exact h r

/-- The ledger states reachable from the pristine Applications tab through
the code's write operations: discovery inserts (`record_new`), `/approve`
updates (whose resume and cover arguments are the Drive view links built by
`up`), `apply_bot.handler` appends (whose rows carry the two filenames
returned by `generate_documents`), and reconciliation updates. -/
inductive Reach : List (List String) → Prop where
  | init : Reach [headerRow]
  | record (details : String → String × Option Int)
      (info : String → CompanyInfo) (now : String) (jobs : List Job)
      {g : List (List String)} (h : Reach g) :
      Reach (record_new_grid details info now g jobs).2
  | approve (link rid cid : String) {g : List (List String)} (h : Reach g) :
      Reach (approve_one g link (drive_link rid) (drive_link cid))
  | submitAppend (tss : Job → String) (now : String) (chosen : List Job)
      {g : List (List String)} (h : Reach g) :
      Reach (handler_append g (fun job => generate_documents (tss job))
        now chosen)
  | reconcile (subject cls : String) {g : List (List String)} (h : Reach g) :
      Reach (process_one g subject cls)

/-- Claim C9: on every reachable ledger state, each row's resume cell (K) is
non-blank exactly when its cover cell (L) is — discovery rows are created
with both blank, and the only update touching either (the `/approve` write)
sets both, non-blank, in the same values update.  In particular the row
written by `record_new` for any job has both artifact cells blank. -/
theorem C9_atomic_doc_pair {g : List (List String)} (h : Reach g) :
    docPair g ∧
    ∀ (details : String → String × Option Int) (info : String → CompanyInfo)
      (now : String) (j : Job),
      cellD (recordNewRow details info now j) 10 = blank ∧
      cellD (recordNewRow details info now j) 11 = blank := by
  refine ⟨?_, fun details info now j => ⟨rfl, rfl⟩⟩
  induction h with
  | init =>
    apply docPair_of_mem
    intro row hrow
    rw [List.mem_singleton.mp hrow]
    exact ⟨fun h' => absurd h' (by decide), fun h' => absurd h' (by decide)⟩
  | record details info now jobs h ih =>
    apply docPair_of_mem
    intro row hrow
    rcases record_new_snd_mem details info now _ jobs row hrow with hg | ⟨j, rfl⟩
    · exact cellIff_of_docPair ih hg
    · exact Iff.rfl
  | approve link rid cid h ih =>
    rcases approve_one_cases _ link (drive_link rid) (drive_link cid) with
      he | ⟨i, he⟩
    · rw [he]
      exact ih
    · rw [he]
      exact docPair_approve_write _ i _ _ (drive_link_ne_blank rid) ih
  | submitAppend tss now chosen h ih =>
    apply docPair_of_mem
    intro row hrow
    rcases List.mem_append.mp hrow with hg | hnew
    · exact cellIff_of_docPair ih hg
    · rcases List.mem_map.mp hnew with ⟨job, _, hj⟩
      rw [← hj]
      exact Iff.rfl
  | reconcile subject cls h ih =>
    rcases process_one_cases _ subject cls with he | ⟨i, he⟩
    · rw [he]
      exact ih
    · rw [he]
      exact docPair_setCell_other _ i 5 cls (by omega) (by omega) ih

/-- Witness for C9 on a concrete reachable ledger: record a discovery batch,
then approve it; the doc-pair invariant holds, and the freshly recorded row
has both artifact cells blank. -/
theorem C9_witness :
    docPair (approve_one (record_new_grid d0 i0 nowS [headerRow] [jobX]).2
      linkX (drive_link fidR) (drive_link fidC)) ∧
    cellD (recordNewRow d0 i0 nowS jobX) 10 = blank ∧
    cellD (recordNewRow d0 i0 nowS jobX) 11 = blank :=
  ⟨(C9_atomic_doc_pair (Reach.approve linkX fidR fidC
      (Reach.record d0 i0 nowS [jobX] Reach.init))).1,
   (C9_atomic_doc_pair (Reach.approve linkX fidR fidC
      (Reach.record d0 i0 nowS [jobX] Reach.init))).2 d0 i0 nowS jobX⟩

/-! ## Claim C10: get_job_details (job_assistant.py lines 150-160) -/

/-- The location result: `loc_m.group(1).strip() if loc_m else ''`. -/
def locOf (findLoc : String → Option String) (text : String) : String :=
  match findLoc text with
  | some m => m.trim
  | none => blank

/-- The body of `get_job_details`'s `try:` block: fetch the page (any network
error raises), run the two regex searches (a miss yields the defaults, not an
error), and convert the salary digits (`int(...)` raises on a match of only
commas).  `Except.error` models a raised exception. -/
def get_job_details_body (fetch : String → Except Unit String)
    (findLoc : String → Option String) (findSal : String → Option String)
    (toIntE : String → Except Unit Int) (link : String) :
    Except Unit (String × Option Int) :=
  match fetch link with
  | .error e => .error e
  | .ok text =>
    match findSal text with
    | none => .ok (locOf findLoc text, none)
    | some s =>
      match toIntE s with
      | .error e => .error e
      | .ok n => .ok (locOf findLoc text, some n)

/-- `get_job_details`: the bare `except:` returns `('', None)` whenever
anything in the body raised. -/
def get_job_details (fetch : String → Except Unit String)
    (findLoc : String → Option String) (findSal : String → Option String)
    (toIntE : String → Except Unit Int) (link : String) :
    String × Option Int :=
  match get_job_details_body fetch findLoc findSal toIntE link with
  | .ok v => v
  | .error _ => (blank, none)

/-- Claim C10: per-posting detail extraction is total — a raised network
error, or a salary-conversion error, is swallowed by the bare `except:` and
the call returns `('', None)`, so one unreachable or malformed posting page
cannot abort the calling batch. -/
theorem C10_details_default_on_failure
    (fetch : String → Except Unit String)
    (findLoc findSal : String → Option String)
    (toIntE : String → Except Unit Int) (link : String) :
    (fetch link = .error () →
      get_job_details fetch findLoc findSal toIntE link = (blank, none)) ∧
    (∀ text s, fetch link = .ok text → findSal text = some s →
      toIntE s = .error () →
      get_job_details fetch findLoc findSal toIntE link = (blank, none)) := by
  constructor
  · intro hf
    simp only [get_job_details, get_job_details_body, hf]
  · intro text s hf hs ht
    simp only [get_job_details, get_job_details_body, hf, hs, ht]

def fetchFail : String → Except Unit String := fun _ => .error ()

def fl0 : String → Option String := fun _ => none

def fs0 : String → Option String := fun _ => none

def ti0 : String → Except Unit Int := fun _ => .error ()

/-- Witness for C10: a page whose fetch raises yields `('', None)`. -/
theorem C10_witness :
    get_job_details fetchFail fl0 fs0 ti0 linkX = (blank, none) :=
  (C10_details_default_on_failure fetchFail fl0 fs0 ti0 linkX).1 rfl

end JobAssistant
